import Mathlib

/-!
Shallow embedding of the contract evaluation and diffing engine of the
RepoContract repository (Rust): the contract data model and profile merge
(`src/contract.rs`), the status-check set-difference and branch-protection
evaluator (`src/branch_protection.rs`), the required-file matcher
(`src/required_files.rs`), and the diff aggregator (`src/diff.rs`).
Machine integers (`u8`, `u64`) are modelled as `Nat`; the code performs no
arithmetic on them beyond comparison, so no overflow wrapping is involved.
-/

/-- Severity levels, from `Severity` in `src/contract.rs`. -/
inductive Severity
  | error
  | warning
  | info
deriving Repr, DecidableEq

/-- Generic structured value, modelling the `serde_json::Value` shapes the
evaluator actually constructs: booleans, numbers, and arrays of strings. -/
inductive JValue
  | bool (b : Bool)
  | num (n : Nat)
  | str (s : String)
  | arr (xs : List String)
deriving Repr, DecidableEq

/-- One required status check, from `StatusCheck` in `src/contract.rs`
(`context: String`, `app_id: Option<u64>`). -/
structure StatusCheck where
  context : String
  app_id : Option Nat
deriving Repr, DecidableEq

/-- `RequiredPullRequestReviews` from `src/contract.rs`. -/
structure RequiredPullRequestReviews where
  enabled : Bool
  required_approving_review_count : Nat
  dismiss_stale_reviews : Bool
  require_code_owner_reviews : Bool
  require_last_push_approval : Bool
deriving Repr, DecidableEq

/-- The `Default` impl for `RequiredPullRequestReviews` in `src/contract.rs`. -/
def RequiredPullRequestReviews.default : RequiredPullRequestReviews :=
  { enabled := true
    required_approving_review_count := 1
    dismiss_stale_reviews := true
    require_code_owner_reviews := false
    require_last_push_approval := false }

/-- `RequiredStatusChecks` from `src/contract.rs`. -/
structure RequiredStatusChecks where
  enabled : Bool
  strict : Bool
  checks : List StatusCheck
deriving Repr, DecidableEq

/-- The `Default` impl for `RequiredStatusChecks` in `src/contract.rs`. -/
def RequiredStatusChecks.default : RequiredStatusChecks :=
  { enabled := true, strict := true, checks := [] }

/-- `BranchProtectionRules` from `src/contract.rs`. -/
structure BranchProtectionRules where
  required_pull_request_reviews : RequiredPullRequestReviews
  required_status_checks : RequiredStatusChecks
  enforce_admins : Bool
  required_linear_history : Bool
  allow_force_pushes : Bool
  allow_deletions : Bool
  required_conversation_resolution : Bool
  required_signatures : Bool
deriving Repr, DecidableEq

/-- The derived `Default` impl for `BranchProtectionRules` in
`src/contract.rs` (sub-group defaults, all six booleans false). -/
def BranchProtectionRules.default : BranchProtectionRules :=
  { required_pull_request_reviews := RequiredPullRequestReviews.default
    required_status_checks := RequiredStatusChecks.default
    enforce_admins := false
    required_linear_history := false
    allow_force_pushes := false
    allow_deletions := false
    required_conversation_resolution := false
    required_signatures := false }

/-- `BranchProtection` from `src/contract.rs`: glob patterns naming the
branches to evaluate, plus the expected rules. -/
structure BranchProtection where
  branches : List String
  rules : BranchProtectionRules
deriving Repr, DecidableEq

/-- `RequiredFile` from `src/contract.rs`. -/
structure RequiredFile where
  path : Option String
  pattern : Option String
  description : Option String
  alternatives : List String
  severity : Severity
  case_insensitive : Bool
deriving Repr, DecidableEq

/-- `Contract` from `src/contract.rs`; `metadata` is an opaque
`serde_yaml::Value`, modelled by a type parameter since the merge only
moves it around. -/
structure Contract (μ : Type) where
  version : String
  profile : Option String
  language : Option String
  branch_protection : Option BranchProtection
  required_files : List RequiredFile
  metadata : Option μ

/-- `Contract::merge_profile` from `src/contract.rs`: clone `base`, extend
`required_files` with the profile's, replace `branch_protection` and
`metadata` when the profile has them. -/
def Contract.merge_profile {μ : Type} (base : Contract μ) (profile : Contract μ) :
    Contract μ :=
  { base with
    required_files := base.required_files ++ profile.required_files
    branch_protection :=
      match profile.branch_protection with
      | some bp => some bp
      | none => base.branch_protection
    metadata :=
      match profile.metadata with
      | some m => some m
      | none => base.metadata }

/-- `has_status_check` from `src/branch_protection.rs`: some actual entry has
the expected context, and when the expected check pins an `app_id` the actual
entry must carry exactly that `app_id`. -/
def has_status_check (expected : StatusCheck) (actual : List StatusCheck) : Bool :=
  actual.any fun check =>
    check.context == expected.context &&
      match expected.app_id with
      | some app_id => check.app_id == some app_id
      | none => true

/-- `missing_status_checks` from `src/branch_protection.rs`. -/
def missing_status_checks (expected actual : List StatusCheck) : List String :=
  (expected.filter fun e => !(has_status_check e actual)).map fun check => check.context

/-- `extra_status_checks` from `src/branch_protection.rs`; the `HashSet` of
expected contexts is modelled by list membership, which decides the same
predicate. -/
def extra_status_checks (expected actual : List StatusCheck) : List String :=
  let expected_contexts := expected.map fun check => check.context
  (actual.filter fun check => !(expected_contexts.contains check.context)).map
    fun check => check.context

/-- `BranchProtectionDetail` from `src/branch_protection.rs`: one verdict per
evaluated field or field-group. -/
structure BranchProtectionDetail where
  path : String
  expected : JValue
  actual : JValue
  missing : Option (List String)
  extra : Option (List String)
  passed : Bool
  severity : Severity
  message : String
deriving Repr, DecidableEq

/-- `push_detail` from `src/branch_protection.rs`, returning the detail it
would push: `missing`/`extra` empty, message blanked when passed. -/
def push_detail (path : String) (expected actual : JValue) (passed : Bool)
    (severity : Severity) (message : String) : BranchProtectionDetail :=
  { path, expected, actual, missing := none, extra := none, passed, severity
    message := if passed then "" else message }

/-- The combined `required_status_checks.checks` detail built inline in
`evaluate_branch_protection` (`src/branch_protection.rs` lines 476-524). -/
def status_checks_detail (status_expected status_actual : RequiredStatusChecks) :
    BranchProtectionDetail :=
  let missing := missing_status_checks status_expected.checks status_actual.checks
  let extra := extra_status_checks status_expected.checks status_actual.checks
  let passed := missing.isEmpty && extra.isEmpty
  let severity := if missing.isEmpty then Severity.warning else Severity.error
  let message :=
    if passed then ""
    else if !missing.isEmpty then
      if extra.isEmpty then
        "Missing required status check: " ++ String.intercalate ", " missing
      else
        "Missing required status check: " ++ String.intercalate ", " missing
          ++ " (extra: " ++ String.intercalate ", " extra ++ ")"
    else "Unexpected status checks: " ++ String.intercalate ", " extra
  { path := "required_status_checks.checks"
    expected := .arr (status_expected.checks.map fun check => check.context)
    actual := .arr (status_actual.checks.map fun check => check.context)
    missing := some missing
    extra := some extra
    passed, severity, message }

/-- The `required_pull_request_reviews` block of `evaluate_branch_protection`
(`src/branch_protection.rs` lines 361-441): the `.enabled` detail always,
the four sub-field details only when the expected group is enabled. -/
def review_details (reviews_expected reviews_actual : RequiredPullRequestReviews) :
    List BranchProtectionDetail :=
  push_detail "required_pull_request_reviews.enabled"
      (.bool reviews_expected.enabled) (.bool reviews_actual.enabled)
      (reviews_expected.enabled == reviews_actual.enabled)
      (if reviews_expected.enabled && !reviews_actual.enabled then Severity.error
        else Severity.warning)
      ("required_pull_request_reviews.enabled: expected "
        ++ toString reviews_expected.enabled ++ ", got "
        ++ toString reviews_actual.enabled)
    :: (if reviews_expected.enabled then
      [ push_detail "required_pull_request_reviews.required_approving_review_count"
          (.num reviews_expected.required_approving_review_count)
          (.num reviews_actual.required_approving_review_count)
          (decide (reviews_actual.required_approving_review_count
            ≥ reviews_expected.required_approving_review_count))
          Severity.error
          ("required_approving_review_count: expected "
            ++ toString reviews_expected.required_approving_review_count ++ ", got "
            ++ toString reviews_actual.required_approving_review_count)
      , push_detail "required_pull_request_reviews.dismiss_stale_reviews"
          (.bool reviews_expected.dismiss_stale_reviews)
          (.bool reviews_actual.dismiss_stale_reviews)
          (reviews_expected.dismiss_stale_reviews == reviews_actual.dismiss_stale_reviews)
          Severity.warning
          ("dismiss_stale_reviews: expected "
            ++ toString reviews_expected.dismiss_stale_reviews ++ ", got "
            ++ toString reviews_actual.dismiss_stale_reviews)
      , push_detail "required_pull_request_reviews.require_code_owner_reviews"
          (.bool reviews_expected.require_code_owner_reviews)
          (.bool reviews_actual.require_code_owner_reviews)
          (reviews_expected.require_code_owner_reviews
            == reviews_actual.require_code_owner_reviews)
          Severity.warning
          ("require_code_owner_reviews: expected "
            ++ toString reviews_expected.require_code_owner_reviews ++ ", got "
            ++ toString reviews_actual.require_code_owner_reviews)
      , push_detail "required_pull_request_reviews.require_last_push_approval"
          (.bool reviews_expected.require_last_push_approval)
          (.bool reviews_actual.require_last_push_approval)
          (reviews_expected.require_last_push_approval
            == reviews_actual.require_last_push_approval)
          Severity.warning
          ("require_last_push_approval: expected "
            ++ toString reviews_expected.require_last_push_approval ++ ", got "
            ++ toString reviews_actual.require_last_push_approval) ]
    else [])

/-- The `required_status_checks` block of `evaluate_branch_protection`
(`src/branch_protection.rs` lines 443-525): the `.enabled` detail always;
when the expected group is enabled, `.strict`, and the combined `.checks`
detail only when the expected checks list is non-empty. -/
def status_details (status_expected status_actual : RequiredStatusChecks) :
    List BranchProtectionDetail :=
  push_detail "required_status_checks.enabled"
      (.bool status_expected.enabled) (.bool status_actual.enabled)
      (status_expected.enabled == status_actual.enabled)
      (if status_expected.enabled && !status_actual.enabled then Severity.error
        else Severity.warning)
      ("required_status_checks.enabled: expected "
        ++ toString status_expected.enabled ++ ", got "
        ++ toString status_actual.enabled)
    :: (if status_expected.enabled then
      push_detail "required_status_checks.strict"
          (.bool status_expected.strict) (.bool status_actual.strict)
          (status_expected.strict == status_actual.strict)
          Severity.warning
          ("required_status_checks.strict: expected "
            ++ toString status_expected.strict ++ ", got "
            ++ toString status_actual.strict)
        :: (if status_expected.checks.isEmpty then []
          else [status_checks_detail status_expected status_actual])
    else [])

/-- The six unconditional top-level boolean details of
`evaluate_branch_protection` (`src/branch_protection.rs` lines 527-598). -/
def boolean_details (expected actual : BranchProtectionRules) :
    List BranchProtectionDetail :=
  [ push_detail "enforce_admins"
      (.bool expected.enforce_admins) (.bool actual.enforce_admins)
      (expected.enforce_admins == actual.enforce_admins) Severity.warning
      ("enforce_admins: expected " ++ toString expected.enforce_admins
        ++ ", got " ++ toString actual.enforce_admins)
  , push_detail "required_linear_history"
      (.bool expected.required_linear_history) (.bool actual.required_linear_history)
      (expected.required_linear_history == actual.required_linear_history)
      Severity.warning
      ("required_linear_history: expected " ++ toString expected.required_linear_history
        ++ ", got " ++ toString actual.required_linear_history)
  , push_detail "allow_force_pushes"
      (.bool expected.allow_force_pushes) (.bool actual.allow_force_pushes)
      (expected.allow_force_pushes == actual.allow_force_pushes) Severity.warning
      ("allow_force_pushes: expected " ++ toString expected.allow_force_pushes
        ++ ", got " ++ toString actual.allow_force_pushes)
  , push_detail "allow_deletions"
      (.bool expected.allow_deletions) (.bool actual.allow_deletions)
      (expected.allow_deletions == actual.allow_deletions) Severity.warning
      ("allow_deletions: expected " ++ toString expected.allow_deletions
        ++ ", got " ++ toString actual.allow_deletions)
  , push_detail "required_conversation_resolution"
      (.bool expected.required_conversation_resolution)
      (.bool actual.required_conversation_resolution)
      (expected.required_conversation_resolution
        == actual.required_conversation_resolution) Severity.warning
      ("required_conversation_resolution: expected "
        ++ toString expected.required_conversation_resolution
        ++ ", got " ++ toString actual.required_conversation_resolution)
  , push_detail "required_signatures"
      (.bool expected.required_signatures) (.bool actual.required_signatures)
      (expected.required_signatures == actual.required_signatures) Severity.warning
      ("required_signatures: expected " ++ toString expected.required_signatures
        ++ ", got " ++ toString actual.required_signatures) ]

/-- `evaluate_branch_protection` from `src/branch_protection.rs`: the details
are pushed in source order — the reviews block, the status-checks block, then
the six booleans. -/
def evaluate_branch_protection (expected actual : BranchProtectionRules) :
    List BranchProtectionDetail :=
  review_details expected.required_pull_request_reviews
      actual.required_pull_request_reviews
    ++ status_details expected.required_status_checks actual.required_status_checks
    ++ boolean_details expected actual

/-- `missing_branch_protection_detail` from `src/branch_protection.rs`. -/
def missing_branch_protection_detail : BranchProtectionDetail :=
  { path := "branch_protection"
    expected := .bool true
    actual := .bool false
    missing := none
    extra := none
    passed := false
    severity := Severity.error
    message := "Branch protection is not enabled" }

/-- The per-target detail computation inside `check_branch_protection`
(`src/branch_protection.rs` lines 160-177): evaluate against the snapshot
when the provider returns one, otherwise the single synthetic detail. -/
def branch_protection_details (rules : BranchProtectionRules)
    (protection : Option BranchProtectionRules) : List BranchProtectionDetail :=
  match protection with
  | some p => evaluate_branch_protection rules p
  | none => [missing_branch_protection_detail]

/-- C1: an expected check's context is listed in `missing` iff some expected
entry with that context has no actual entry of equal context and compatible
`app_id` (expected `Some x` demands actual `Some x`; expected `None` accepts
anything); an actual check's context is listed in `extra` iff some actual
entry carries it and no expected entry does, `app_id` ignored. -/
theorem c1_status_check_set_difference (expected actual : List StatusCheck) (c : String) :
    (c ∈ missing_status_checks expected actual ↔
      ∃ e ∈ expected, e.context = c ∧
        ¬ ∃ a ∈ actual, a.context = c ∧
          (∀ x, e.app_id = some x → a.app_id = some x))
    ∧ (c ∈ extra_status_checks expected actual ↔
      ∃ a ∈ actual, a.context = c ∧ ¬ ∃ e ∈ expected, e.context = c) := by
  constructor
  · simp only [missing_status_checks, List.mem_map, List.mem_filter,
      Bool.not_eq_true', has_status_check, List.any_eq_false, Bool.and_eq_true,
      beq_iff_eq]
    constructor
    · rintro ⟨e, ⟨he, hno⟩, rfl⟩
      refine ⟨e, he, rfl, ?_⟩
      rintro ⟨a, ha, hac, hcompat⟩
      rcases hx : e.app_id with _ | x
      · exact absurd (hno a ha) (by simp [hac, hx])
      · exact absurd (hno a ha) (by simp [hac, hx, hcompat x hx])
    · rintro ⟨e, he, rfl, hno⟩
      refine ⟨e, ⟨he, fun a ha => ?_⟩, rfl⟩
      by_contra hmatch
      rcases hx : e.app_id with _ | x
      · rw [hx] at hmatch
        simp only [Bool.not_eq_false, Bool.and_eq_true, beq_iff_eq] at hmatch
        exact hno ⟨a, ha, hmatch.1, by simp [hx]⟩
      · rw [hx] at hmatch
        simp only [Bool.not_eq_false, Bool.and_eq_true, beq_iff_eq] at hmatch
        exact hno ⟨a, ha, hmatch.1, fun y hy => by
          rw [hx] at hy
          cases hy
          exact hmatch.2⟩
  · simp only [extra_status_checks, List.mem_map, List.mem_filter,
      Bool.not_eq_true', List.contains_eq_any_beq, List.any_eq_false,
      beq_eq_false_iff_ne, ne_eq]
    constructor
    · rintro ⟨a, ⟨ha, hno⟩, rfl⟩
      refine ⟨a, ha, rfl, ?_⟩
      rintro ⟨e, he, hec⟩
      exact hno a.context ⟨e, he, hec⟩ (by simp)
    · rintro ⟨a, ha, rfl, hno⟩
      refine ⟨a, ⟨ha, ?_⟩, rfl⟩
      intro x hex hax
      rw [beq_iff_eq] at hax
      exact hno (hax ▸ hex)

/-- C2: `merge_profile` concatenates required files (length adds, no
deduplication), takes the profile's `branch_protection` and `metadata` when
present and the base's otherwise, and keeps every other field of the base;
the operation is total. -/
theorem c2_merge_profile {μ : Type} (base profile : Contract μ) :
    (base.merge_profile profile).required_files
        = base.required_files ++ profile.required_files
    ∧ (base.merge_profile profile).required_files.length
        = base.required_files.length + profile.required_files.length
    ∧ (base.merge_profile profile).branch_protection
        = profile.branch_protection.or base.branch_protection
    ∧ (base.merge_profile profile).metadata = profile.metadata.or base.metadata
    ∧ (base.merge_profile profile).version = base.version
    ∧ (base.merge_profile profile).profile = base.profile
    ∧ (base.merge_profile profile).language = base.language := by
  refine ⟨rfl, List.length_append _ _, ?_, ?_, rfl, rfl, rfl⟩
  · show (match profile.branch_protection with
      | some bp => some bp
      | none => base.branch_protection) = _
    cases profile.branch_protection <;> rfl
  · show (match profile.metadata with
      | some m => some m
      | none => base.metadata) = _
    cases profile.metadata <;> rfl

/-- Helper: a detail built by `push_detail` carries the given path. -/
theorem push_detail_path_eq (p : String) (e a : JValue) (ps : Bool) (sv : Severity)
    (m : String) : (push_detail p e a ps sv m).path = p := rfl

/-- Helper: the combined checks detail carries the `.checks` path. -/
theorem status_checks_detail_path_eq (se sa : RequiredStatusChecks) :
    (status_checks_detail se sa).path = "required_status_checks.checks" := rfl

/-- C3: when the expected reviews group is enabled, the evaluator emits
exactly one `required_pull_request_reviews.required_approving_review_count`
verdict; it has severity `error` and passes iff the actual count is at least
the expected count (a strictly greater actual also passes). -/
theorem c3_review_count_verdict (expected actual : BranchProtectionRules)
    (h : expected.required_pull_request_reviews.enabled = true) :
    (evaluate_branch_protection expected actual).filter
        (fun d => d.path == "required_pull_request_reviews.required_approving_review_count")
      = [push_detail "required_pull_request_reviews.required_approving_review_count"
          (.num expected.required_pull_request_reviews.required_approving_review_count)
          (.num actual.required_pull_request_reviews.required_approving_review_count)
          (decide (actual.required_pull_request_reviews.required_approving_review_count
            ≥ expected.required_pull_request_reviews.required_approving_review_count))
          Severity.error
          ("required_approving_review_count: expected "
            ++ toString expected.required_pull_request_reviews.required_approving_review_count
            ++ ", got "
            ++ toString actual.required_pull_request_reviews.required_approving_review_count)]
    ∧ ((decide (actual.required_pull_request_reviews.required_approving_review_count
          ≥ expected.required_pull_request_reviews.required_approving_review_count) : Bool)
        = true
      ↔ expected.required_pull_request_reviews.required_approving_review_count
          ≤ actual.required_pull_request_reviews.required_approving_review_count) := by
  constructor
  · cases hse : expected.required_status_checks.enabled <;>
      cases hsc : expected.required_status_checks.checks.isEmpty <;>
        simp [evaluate_branch_protection, review_details, status_details, boolean_details, h,
          hse, hsc, push_detail_path_eq, status_checks_detail_path_eq]
  · exact decide_eq_true_iff

/-- C3 witness: expected count 2 with actual count 1 yields exactly the
failing error verdict (and 2 ≤ 1 being false, `passed` is `false`), per
`c3_review_count_verdict` at a concrete input. -/
theorem c3_review_count_verdict_witness :
    (evaluate_branch_protection
        { BranchProtectionRules.default with
          required_pull_request_reviews :=
            { RequiredPullRequestReviews.default with
              required_approving_review_count := 2 } }
        { BranchProtectionRules.default with
          required_pull_request_reviews :=
            { RequiredPullRequestReviews.default with
              required_approving_review_count := 1 } }).filter
        (fun d => d.path == "required_pull_request_reviews.required_approving_review_count")
      = [push_detail "required_pull_request_reviews.required_approving_review_count"
          (.num 2) (.num 1) false Severity.error
          "required_approving_review_count: expected 2, got 1"] := by
  have := c3_review_count_verdict
    { BranchProtectionRules.default with
      required_pull_request_reviews :=
        { RequiredPullRequestReviews.default with
          required_approving_review_count := 2 } }
    { BranchProtectionRules.default with
      required_pull_request_reviews :=
        { RequiredPullRequestReviews.default with
          required_approving_review_count := 1 } }
    rfl
  simpa using this.1

/-- C4: a `required_status_checks.checks` verdict is emitted iff the expected
status-checks group is enabled and its checks list is non-empty; the emitted
verdict passes iff both the missing and extra sets are empty, its severity is
`error` exactly when some check is missing and `warning` otherwise, and its
`missing`/`extra` fields carry the two computed lists. -/
theorem c4_checks_verdict (expected actual : BranchProtectionRules) :
    (evaluate_branch_protection expected actual).filter
        (fun d => d.path == "required_status_checks.checks")
      = (if expected.required_status_checks.enabled
            && !expected.required_status_checks.checks.isEmpty
          then [status_checks_detail expected.required_status_checks
                  actual.required_status_checks]
          else [])
    ∧ (status_checks_detail expected.required_status_checks
          actual.required_status_checks).passed
        = ((missing_status_checks expected.required_status_checks.checks
              actual.required_status_checks.checks).isEmpty
            && (extra_status_checks expected.required_status_checks.checks
              actual.required_status_checks.checks).isEmpty)
    ∧ (status_checks_detail expected.required_status_checks
          actual.required_status_checks).severity
        = (if (missing_status_checks expected.required_status_checks.checks
              actual.required_status_checks.checks).isEmpty
            then Severity.warning else Severity.error)
    ∧ (status_checks_detail expected.required_status_checks
          actual.required_status_checks).missing
        = some (missing_status_checks expected.required_status_checks.checks
            actual.required_status_checks.checks)
    ∧ (status_checks_detail expected.required_status_checks
          actual.required_status_checks).extra
        = some (extra_status_checks expected.required_status_checks.checks
            actual.required_status_checks.checks) := by
  refine ⟨?_, rfl, rfl, rfl, rfl⟩
  cases hre : expected.required_pull_request_reviews.enabled <;>
    cases hse : expected.required_status_checks.enabled <;>
      cases hsc : expected.required_status_checks.checks.isEmpty <;>
        simp [evaluate_branch_protection, review_details, status_details, boolean_details,
          hre, hse, hsc, push_detail_path_eq, status_checks_detail_path_eq]

/-- C5: when the provider reports no protection for a branch (`None`), the
evaluation for that branch is the single synthetic verdict — path
`branch_protection`, expected `true`, actual `false`, failed, severity
`error`, message "Branch protection is not enabled" — and nothing else. -/
theorem c5_missing_protection_short_circuit (rules : BranchProtectionRules) :
    branch_protection_details rules none
      = [{ path := "branch_protection"
           expected := .bool true
           actual := .bool false
           missing := none
           extra := none
           passed := false
           severity := Severity.error
           message := "Branch protection is not enabled" }] := rfl

/-- C6: the `required_pull_request_reviews.enabled` and
`required_status_checks.enabled` verdicts are each emitted exactly once;
each passes iff expected and actual are equal, and carries severity `error`
when expected is `true` and actual `false`, `warning` in every other case. -/
theorem c6_enabled_verdicts (expected actual : BranchProtectionRules) :
    (evaluate_branch_protection expected actual).filter
        (fun d => d.path == "required_pull_request_reviews.enabled")
      = [push_detail "required_pull_request_reviews.enabled"
          (.bool expected.required_pull_request_reviews.enabled)
          (.bool actual.required_pull_request_reviews.enabled)
          (expected.required_pull_request_reviews.enabled
            == actual.required_pull_request_reviews.enabled)
          (if expected.required_pull_request_reviews.enabled
              && !actual.required_pull_request_reviews.enabled
            then Severity.error else Severity.warning)
          ("required_pull_request_reviews.enabled: expected "
            ++ toString expected.required_pull_request_reviews.enabled ++ ", got "
            ++ toString actual.required_pull_request_reviews.enabled)]
    ∧ (evaluate_branch_protection expected actual).filter
        (fun d => d.path == "required_status_checks.enabled")
      = [push_detail "required_status_checks.enabled"
          (.bool expected.required_status_checks.enabled)
          (.bool actual.required_status_checks.enabled)
          (expected.required_status_checks.enabled
            == actual.required_status_checks.enabled)
          (if expected.required_status_checks.enabled
              && !actual.required_status_checks.enabled
            then Severity.error else Severity.warning)
          ("required_status_checks.enabled: expected "
            ++ toString expected.required_status_checks.enabled ++ ", got "
            ++ toString actual.required_status_checks.enabled)] := by
  constructor <;>
    cases hre : expected.required_pull_request_reviews.enabled <;>
      cases hse : expected.required_status_checks.enabled <;>
        cases hsc : expected.required_status_checks.checks.isEmpty <;>
          simp [evaluate_branch_protection, review_details, status_details, boolean_details,
            hre, hse, hsc, push_detail_path_eq, status_checks_detail_path_eq]

/-- Tokens of a compiled glob pattern. Modelled from the `globset` crate,
the external dependency used by `match_glob` in `src/required_files.rs`:
literal characters, `?` (any one character), `*` (any sequence), `[...]`
character classes, and the three recursive-wildcard forms `**/` (prefix),
`/**` (suffix) and `/**/` (zero-or-more components). The model covers the
pattern subset without `{...}` alternates and escapes (`normalize_path` has
already replaced every backslash). -/
inductive GlobToken
  | lit (c : Char)
  | anyOne
  | anyMany
  | cls (negated : Bool) (ranges : List (Char × Char))
  | recPrefix
  | recSuffix
  | recZero
deriving Repr, DecidableEq

/-- Modelled from `globset`: consume the body of a `[...]` class up to the
closing `]`, returning the ranges and the remaining input; an unclosed or
empty class fails, as `globset`'s parser rejects it. A `-` directly before
the closing `]` is a literal. -/
def glob_class_split (acc : List (Char × Char)) :
    List Char → Option (List (Char × Char) × List Char)
  | [] => none
  | ']' :: rest => if acc.isEmpty then none else some (acc.reverse, rest)
  | lo :: '-' :: hi :: rest =>
      if hi == ']' then some ((('-', '-') :: (lo, lo) :: acc).reverse, rest)
      else glob_class_split ((lo, hi) :: acc) rest
  | c :: rest => glob_class_split ((c, c) :: acc) rest

/-- Modelled from `globset`: fuel-indexed pattern parser; the boolean records
whether the position is a path-component boundary (pattern start or just
after `/`), which governs the recursive-wildcard forms; a `**` not forming a
whole component is a build error. Each step consumes at least one input
character, so fuel bounded by the input length suffices; the fuel only makes
the recursion structural. -/
def glob_parse_fuel : Nat → Bool → List Char → Option (List GlobToken)
  | _, _, [] => some []
  | 0, _, _ :: _ => none
  | fuel + 1, _, '/' :: '*' :: '*' :: '/' :: rest =>
      (glob_parse_fuel fuel true rest).map fun ts => .recZero :: ts
  | _ + 1, _, ['/', '*', '*'] => some [.recSuffix]
  | _ + 1, _, '/' :: '*' :: '*' :: _ :: _ => none
  | fuel + 1, true, '*' :: '*' :: '/' :: rest =>
      (glob_parse_fuel fuel true rest).map fun ts => .recPrefix :: ts
  | _ + 1, true, ['*', '*'] => some [.anyMany]
  | _ + 1, _, '*' :: '*' :: _ => none
  | fuel + 1, _, '*' :: rest =>
      (glob_parse_fuel fuel false rest).map fun ts => .anyMany :: ts
  | fuel + 1, _, '?' :: rest =>
      (glob_parse_fuel fuel false rest).map fun ts => .anyOne :: ts
  | fuel + 1, _, '[' :: rest =>
      let split :=
        match rest with
        | '!' :: body => glob_class_split [] body |>.map fun r => (true, r)
        | _ => glob_class_split [] rest |>.map fun r => (false, r)
      match split with
      | none => none
      | some (negated, ranges, rest2) =>
          (glob_parse_fuel fuel false rest2).map fun ts => .cls negated ranges :: ts
  | fuel + 1, _, c :: rest =>
      (glob_parse_fuel fuel (c == '/') rest).map fun ts => .lit c :: ts

/-- Modelled from `globset`: parse a glob pattern into tokens; `none` is a
build failure (`GlobBuilder::build` returning `Err`). -/
def glob_parse (pattern : List Char) : Option (List GlobToken) :=
  glob_parse_fuel (pattern.length + 1) true pattern

/-- Modelled from `globset`: one pattern character against one input
character, optionally case-insensitively (`GlobBuilder::case_insensitive`). -/
def glob_char_matches (case_insensitive : Bool) (p c : Char) : Bool :=
  if case_insensitive then p.toLower == c.toLower else p == c

/-- Modelled from `globset`: one class range against one input character. -/
def glob_range_matches (case_insensitive : Bool) (lo hi c : Char) : Bool :=
  (decide (lo ≤ c) && decide (c ≤ hi))
    || (case_insensitive &&
      ((decide (lo ≤ c.toLower) && decide (c.toLower ≤ hi))
        || (decide (lo ≤ c.toUpper) && decide (c.toUpper ≤ hi))))

/-- Modelled from `globset`: token-list matching without `literal_separator`
(the configuration `match_glob` in `src/required_files.rs` builds), so
`anyOne`/`anyMany` match every character including `/`. Fuel-indexed: each
step consumes a token or an input character, so fuel bounded by the sum of
both lengths suffices; the fuel only makes the recursion structural. -/
def glob_match_fuel (case_insensitive : Bool) :
    Nat → List GlobToken → List Char → Bool
  | _, [], [] => true
  | 0, _ :: _, _ => false
  | 0, [], _ :: _ => false
  | _ + 1, [], _ :: _ => false
  | _ + 1, .lit _ :: _, [] => false
  | fuel + 1, .lit p :: ts, c :: cs =>
      glob_char_matches case_insensitive p c
        && glob_match_fuel case_insensitive fuel ts cs
  | _ + 1, .anyOne :: _, [] => false
  | fuel + 1, .anyOne :: ts, _ :: cs => glob_match_fuel case_insensitive fuel ts cs
  | _ + 1, .cls _ _ :: _, [] => false
  | fuel + 1, .cls negated ranges :: ts, c :: cs =>
      ((ranges.any fun r => glob_range_matches case_insensitive r.1 r.2 c) != negated)
        && glob_match_fuel case_insensitive fuel ts cs
  | fuel + 1, .anyMany :: ts, [] => glob_match_fuel case_insensitive fuel ts []
  | fuel + 1, .anyMany :: ts, c :: cs =>
      glob_match_fuel case_insensitive fuel ts (c :: cs)
        || glob_match_fuel case_insensitive fuel (.anyMany :: ts) cs
  | fuel + 1, .recPrefix :: ts, [] => glob_match_fuel case_insensitive fuel ts []
  | fuel + 1, .recPrefix :: ts, c :: cs =>
      glob_match_fuel case_insensitive fuel ts (c :: cs)
        || ((c == '/') && glob_match_fuel case_insensitive fuel ts cs)
        || glob_match_fuel case_insensitive fuel (.recPrefix :: ts) cs
  | fuel + 1, .recSuffix :: ts, cs =>
      glob_match_fuel case_insensitive fuel ts cs
        || (match cs with
          | '/' :: rest => glob_match_fuel case_insensitive fuel (.anyMany :: ts) rest
          | _ => false)
  | fuel + 1, .recZero :: ts, cs =>
      match cs with
      | '/' :: rest => glob_match_fuel case_insensitive fuel (.recPrefix :: ts) rest
      | _ => false

/-- Modelled from `globset`: whether a compiled glob matches a string. -/
def glob_match_tokens (case_insensitive : Bool) (tokens : List GlobToken)
    (input : List Char) : Bool :=
  glob_match_fuel case_insensitive (tokens.length + input.length + 1) tokens input

/-- `match_glob` from `src/required_files.rs`: build the pattern (the builder
receives `case_insensitive` but — unlike branch matching in
`src/branch_protection.rs` — not `literal_separator`) and test whether any
file matches; a pattern that fails to build yields `false`. -/
def match_glob (pattern : String) (files : List String) (case_insensitive : Bool) :
    Bool :=
  match glob_parse pattern.toList with
  | some tokens =>
      files.any fun file => glob_match_tokens case_insensitive tokens file.toList
  | none => false

/-- `normalize_path` from `src/required_files.rs`
(`path.replace('\x5c', "/")`); written over the character list so that it
evaluates by kernel reduction. -/
def normalize_path (path : String) : String :=
  String.mk (path.toList.map fun c => if c == '\\' then '/' else c)

/-- `looks_like_glob` from `src/required_files.rs`; `str::contains(char)`
modelled over the character list. -/
def looks_like_glob (candidate : String) : Bool :=
  candidate.toList.contains '*' || candidate.toList.contains '?'
    || candidate.toList.contains '['

/-- The error variants of `ContractError` (`src/lib.rs`) that the evaluation
core itself constructs. -/
inductive ContractError
  | invalidConfig (msg : String)
deriving Repr, DecidableEq

/-- `path_exists` from `src/required_files.rs`; literal on-disk existence
(`root.join(candidate).exists()`) is supplied by the filesystem as the
`disk_exists` predicate. -/
def path_exists (candidate : String) (files : List String)
    (files_lowercase : List String) (case_insensitive : Bool)
    (disk_exists : String → Bool) : Bool :=
  let normalized := normalize_path candidate
  if looks_like_glob normalized then match_glob normalized files case_insensitive
  else if case_insensitive then files_lowercase.contains normalized.toLower
  else disk_exists candidate

/-- `RequiredFileCheck` from `src/required_files.rs`; the Rust field `exists`
is a Lean keyword, hence `exists_`. -/
structure RequiredFileCheck where
  path : String
  exists_ : Bool
  severity : Severity
  description : Option String
deriving Repr, DecidableEq

/-- `match_regex` from `src/required_files.rs`; the `regex` crate is an
external dependency, so its builder enters as the parameter `regex_build`,
returning either a build-error message or a compiled matcher. A build
failure maps to `ContractError::InvalidConfig` carrying the message. -/
def match_regex (regex_build : String → Bool → Except String (String → Bool))
    (pattern : String) (files : List String) (case_insensitive : Bool) :
    Except ContractError Bool :=
  match regex_build pattern case_insensitive with
  | .error e => .error (.invalidConfig e)
  | .ok re => .ok (files.any fun file => re file)

/-- `evaluate_required_file` from `src/required_files.rs`: the `path` branch
(candidates are the path followed by the alternatives, any match suffices)
takes precedence, then the `pattern` branch, else the invalid-configuration
error. -/
def evaluate_required_file (regex_build : String → Bool → Except String (String → Bool))
    (required : RequiredFile) (files : List String) (files_lowercase : List String)
    (disk_exists : String → Bool) : Except ContractError RequiredFileCheck :=
  match required.path with
  | some path =>
      let candidates := path :: required.alternatives
      let found := candidates.any fun candidate =>
        path_exists candidate files files_lowercase required.case_insensitive
          disk_exists
      .ok { path := path, exists_ := found, severity := required.severity
            description := required.description }
  | none =>
      match required.pattern with
      | some pattern =>
          match match_regex regex_build pattern files required.case_insensitive with
          | .error e => .error e
          | .ok found =>
              .ok { path := pattern, exists_ := found, severity := required.severity
                    description := required.description }
      | none => .error (.invalidConfig "required_files entry must include path or pattern")

/-- C7 counterexample: a rule carrying BOTH `path` and `pattern` is not
rejected as invalid configuration — `evaluate_required_file` evaluates it
through the `path` branch and returns `Ok`, contradicting the claim that
exactly-one-of is enforced at evaluation time in both directions. -/
theorem c7_both_set_counterexample :
    evaluate_required_file (fun _ _ => .error "unused")
        { path := some "LICENSE", pattern := some "^LICENSE$", description := none
          alternatives := [], severity := Severity.error, case_insensitive := false }
        ["LICENSE"] ["license"] (fun p => p == "LICENSE")
      = .ok { path := "LICENSE", exists_ := true, severity := Severity.error
              description := none } := rfl

/-- C7 as amended: a rule with neither `path` nor `pattern` fails with the
invalid-configuration error, while a rule with both behaves exactly as the
same rule with `pattern` dropped — `path` takes precedence and the rule is
evaluated, not rejected. -/
theorem c7_path_pattern_requirement
    (regex_build : String → Bool → Except String (String → Bool))
    (required : RequiredFile) (files files_lowercase : List String)
    (disk_exists : String → Bool) :
    (required.path = none → required.pattern = none →
      evaluate_required_file regex_build required files files_lowercase disk_exists
        = .error (.invalidConfig "required_files entry must include path or pattern"))
    ∧ (∀ p, required.path = some p →
      evaluate_required_file regex_build required files files_lowercase disk_exists
        = evaluate_required_file regex_build { required with pattern := none }
            files files_lowercase disk_exists) := by
  constructor
  · intro hp hpat
    simp [evaluate_required_file, hp, hpat]
  · intro p hp
    simp [evaluate_required_file, hp]

/-- C7 witness: `c7_path_pattern_requirement` at concrete inputs — the rule
with neither field errors, and a both-set rule evaluates identically to its
path-only counterpart. -/
theorem c7_path_pattern_requirement_witness :
    evaluate_required_file (fun _ _ => .error "unused")
        { path := none, pattern := none, description := none, alternatives := []
          severity := Severity.error, case_insensitive := false }
        ["README.md"] ["readme.md"] (fun _ => false)
      = .error (.invalidConfig "required_files entry must include path or pattern")
    ∧ evaluate_required_file (fun _ _ => .error "unused")
        { path := some "README.md", pattern := some "^README$", description := none
          alternatives := [], severity := Severity.error, case_insensitive := false }
        ["README.md"] ["readme.md"] (fun _ => false)
      = evaluate_required_file (fun _ _ => .error "unused")
        { path := some "README.md", pattern := none, description := none
          alternatives := [], severity := Severity.error, case_insensitive := false }
        ["README.md"] ["readme.md"] (fun _ => false) :=
  ⟨(c7_path_pattern_requirement (fun _ _ => .error "unused")
      { path := none, pattern := none, description := none, alternatives := []
        severity := Severity.error, case_insensitive := false }
      ["README.md"] ["readme.md"] (fun _ => false)).1 rfl rfl,
   (c7_path_pattern_requirement (fun _ _ => .error "unused")
      { path := some "README.md", pattern := some "^README$", description := none
        alternatives := [], severity := Severity.error, case_insensitive := false }
      ["README.md"] ["readme.md"] (fun _ => false)).2 "README.md" rfl⟩

/-- C8 counterexample: the claim says `*` never matches across a path
separator, so `docs/*.md` should match no file set whose only entry is
`docs/sub/a.md`; but `match_glob` builds its glob WITHOUT
`literal_separator`, and the candidate does match. -/
theorem c8_literal_separator_counterexample :
    path_exists "docs/*.md" ["docs/sub/a.md"] [] false (fun _ => false) = true := rfl

/-- C8 as amended: a candidate containing `*`, `?` or `[` is decided by glob
matching against the file set — but with `globset`'s default semantics, in
which `*` and `?` may cross `/` (no `literal_separator`); `docs/*.md`
matches `docs/a.md` and also a file set whose only entry is
`docs/sub/a.md`. -/
theorem c8_glob_candidate_matching (candidate : String)
    (files files_lowercase : List String) (case_insensitive : Bool)
    (disk_exists : String → Bool)
    (h : looks_like_glob (normalize_path candidate) = true) :
    path_exists candidate files files_lowercase case_insensitive disk_exists
      = match_glob (normalize_path candidate) files case_insensitive
    ∧ match_glob "docs/*.md" ["docs/a.md"] false = true
    ∧ match_glob "docs/*.md" ["docs/sub/a.md"] false = true := by
  refine ⟨?_, by decide, by decide⟩
  simp [path_exists, h]

/-- C8 witness: `c8_glob_candidate_matching` at the concrete glob candidate
`docs/*.md`. -/
theorem c8_glob_candidate_matching_witness :
    path_exists "docs/*.md" ["docs/a.md"] [] false (fun _ => false)
      = match_glob (normalize_path "docs/*.md") ["docs/a.md"] false
    ∧ match_glob "docs/*.md" ["docs/a.md"] false = true
    ∧ match_glob "docs/*.md" ["docs/sub/a.md"] false = true :=
  c8_glob_candidate_matching "docs/*.md" ["docs/a.md"] [] false (fun _ => false) rfl

/-- C9 counterexample: an unparseable glob candidate (`[` has an unclosed
class) is NOT fatal — the rule evaluates to `Ok` with `exists = false`
instead of surfacing an invalid-configuration error, contradicting the
claim for the glob half. -/
theorem c9_glob_failure_counterexample :
    evaluate_required_file (fun _ _ => .error "unused")
        { path := some "[", pattern := none, description := none, alternatives := []
          severity := Severity.error, case_insensitive := false }
        ["["] ["["] (fun _ => false)
      = .ok { path := "[", exists_ := false, severity := Severity.error
              description := none } := rfl

/-- C9 as amended: an unparseable regex pattern is fatal — `match_regex`
surfaces `ContractError::InvalidConfig` to the caller — but an unparseable
glob candidate is silently treated as matching nothing (`match_glob` returns
`false`, never an error). -/
theorem c9_parse_failure_handling
    (regex_build : String → Bool → Except String (String → Bool))
    (pattern msg : String) (files : List String) (case_insensitive : Bool)
    (h : regex_build pattern case_insensitive = .error msg) :
    match_regex regex_build pattern files case_insensitive
      = .error (.invalidConfig msg)
    ∧ ∀ glob_pattern : String, glob_parse glob_pattern.toList = none →
        match_glob glob_pattern files case_insensitive = false := by
  constructor
  · simp [match_regex, h]
  · intro gp hgp
    simp only [String.toList] at hgp
    simp [match_glob, String.toList, hgp]

/-- C9 witness: `c9_parse_failure_handling` with a concrete failing regex
builder and the concrete unparseable glob `[`. -/
theorem c9_parse_failure_handling_witness :
    match_regex (fun _ _ => .error "regex parse error") "(" ["a"] false
      = .error (.invalidConfig "regex parse error")
    ∧ match_glob "[" ["a"] false = false :=
  ⟨(c9_parse_failure_handling (fun _ _ => .error "regex parse error") "("
      "regex parse error" ["a"] false rfl).1,
   (c9_parse_failure_handling (fun _ _ => .error "regex parse error") "("
      "regex parse error" ["a"] false rfl).2 "[" (by decide)⟩

/-- `Summary` from `src/required_files.rs`: failed-verdict counters. -/
structure Summary where
  error : Nat
  warning : Nat
  info : Nat
deriving Repr, DecidableEq

/-- The derived `Default` impl for `Summary` (all counters zero). -/
def Summary.default : Summary := { error := 0, warning := 0, info := 0 }

/-- The `match severity` counter bump both aggregators perform. -/
def bump_summary (summary : Summary) (severity : Severity) : Summary :=
  match severity with
  | .error => { summary with error := summary.error + 1 }
  | .warning => { summary with warning := summary.warning + 1 }
  | .info => { summary with info := summary.info + 1 }

/-- `BranchProtectionCheck` from `src/branch_protection.rs`. -/
structure BranchProtectionCheck where
  path : String
  expected : JValue
  actual : JValue
  severity : Severity
  message : String
deriving Repr, DecidableEq

/-- `BranchProtectionReport` from `src/branch_protection.rs`. -/
structure BranchProtectionReport where
  target : String
  checks : List BranchProtectionCheck
  details : List BranchProtectionDetail
deriving Repr, DecidableEq

/-- `detail_to_check` from `src/branch_protection.rs`. -/
def detail_to_check (detail : BranchProtectionDetail) : BranchProtectionCheck :=
  { path := detail.path, expected := detail.expected, actual := detail.actual
    severity := detail.severity, message := detail.message }

/-- `DiffEntry` from `src/diff.rs`. -/
structure DiffEntry where
  rule : String
  path : String
  diff_type : String
  severity : Option Severity
  target : Option String
  expected : Option JValue
  actual : Option JValue
  missing : Option (List String)
  extra : Option (List String)
deriving Repr, DecidableEq

/-- `DiffReport` from `src/diff.rs`. -/
structure DiffReport where
  diffs : List DiffEntry
  summary : Option Summary
deriving Repr, DecidableEq

/-- The diff entry `diff_branch_protection` pushes for a failing detail
(`src/branch_protection.rs` lines 205-220): `array_diff` when the detail
carries `missing`/`extra` lists, else `value_mismatch`; `severity` is always
`None`. -/
def branch_protection_diff_entry (target : String)
    (detail : BranchProtectionDetail) : DiffEntry :=
  { rule := "branch_protection"
    path := detail.path
    diff_type := if detail.missing.isSome || detail.extra.isSome then "array_diff"
      else "value_mismatch"
    severity := none
    target := some target
    expected := some detail.expected
    actual := some detail.actual
    missing := detail.missing
    extra := detail.extra }

/-- `diff_branch_protection` from `src/branch_protection.rs`: for every
report, every non-passed detail becomes one diff entry. -/
def diff_branch_protection (reports : List BranchProtectionReport) :
    List DiffEntry :=
  reports.flatMap fun report =>
    (report.details.filter fun detail => !detail.passed).map
      (branch_protection_diff_entry report.target)

/-- The diff entry `diff_required_files` pushes for a failing check
(`src/diff.rs` lines 43-53). -/
def required_file_diff_entry (check : RequiredFileCheck) : DiffEntry :=
  { rule := "required_files"
    path := check.path
    diff_type := "missing_file"
    severity := some check.severity
    target := none
    expected := none
    actual := none
    missing := none
    extra := none }

/-- `diff_required_files` from `src/diff.rs`: one pass over the checks,
skipping the existing ones, counting each failing one into the summary and
pushing its `missing_file` diff entry. -/
def diff_required_files (checks : List RequiredFileCheck) : DiffReport :=
  let result := checks.foldl
    (fun acc check =>
      if check.exists_ then acc
      else (acc.1 ++ [required_file_diff_entry check],
        bump_summary acc.2 check.severity))
    (([] : List DiffEntry), Summary.default)
  { diffs := result.1, summary := some result.2 }

/-- Helper: the diff list accumulated by `diff_required_files`' fold is the
filter-map of the failing checks, for any starting accumulator. -/
theorem diff_required_files_foldl (checks : List RequiredFileCheck)
    (acc : List DiffEntry) (s : Summary) :
    (checks.foldl
      (fun acc check =>
        if check.exists_ then acc
        else (acc.1 ++ [required_file_diff_entry check],
          bump_summary acc.2 check.severity))
      (acc, s)).1
      = acc ++ (checks.filter fun c => !c.exists_).map required_file_diff_entry := by
  induction checks generalizing acc s with
  | nil => simp
  | cons c cs ih =>
      cases hc : c.exists_ <;>
        simp [hc, ih, List.filter_cons]

/-- C10: every diff entry produced from a failing branch-protection verdict
drops the verdict's severity (`severity = None`), while the required-files
diff is exactly one `missing_file` entry per failing check, each carrying
`Some` of that check's severity. -/
theorem c10_diff_entry_severity (reports : List BranchProtectionReport)
    (checks : List RequiredFileCheck) :
    ((diff_branch_protection reports).all fun d => d.severity.isNone) = true
    ∧ (diff_required_files checks).diffs
      = (checks.filter fun c => !c.exists_).map required_file_diff_entry
    ∧ ∀ check : RequiredFileCheck,
        (required_file_diff_entry check).severity = some check.severity := by
  refine ⟨?_, ?_, fun _ => rfl⟩
  · simp only [List.all_eq_true, diff_branch_protection, List.mem_flatMap,
      List.mem_map, List.mem_filter]
    rintro d ⟨report, _, detail, _, rfl⟩
    rfl
  · simpa using diff_required_files_foldl checks [] Summary.default
